import Mathlib

/-
Verification of the deletion endpoint of the Katelya-TGBed repository
(file functions/api/manage/delete/[id].js), as a shallow embedding in
Lean 4.  The single request handler onRequest resolves an asset
identifier to a key-value metadata record, classifies the asset as
object-store (R2) backed or messaging (Telegram) backed, and runs the
backend-specific deletion sequence.  All external collaborators (the
key-value store, the R2 bucket, the Telegram transport) are modelled as
per-request oracles, and every externally visible mutation or lookup is
recorded in an event trace, so that ordering and frame properties can be
stated precisely.
-/

namespace TGBed

/-- Truthiness of an optional JavaScript string value: undefined/null and
the empty string are falsy, every other string is truthy. -/
def truthyS : Option String → Bool
  | none => false
  | some s => !(s == "")

/-- Truthiness of an optional JavaScript boolean field (absent is falsy). -/
def truthyB : Option Bool → Bool
  | none => false
  | some b => b

/-- Model of the JavaScript expression a || b over string values: the
value of a when a is truthy, otherwise the value of b. -/
def jsOrS (a : Option String) (b : String) : String :=
  match a with
  | none => b
  | some s => if s == "" then b else s

/-- Model of JavaScript String.prototype.startsWith on decoded strings. -/
def jsStartsWith (s p : String) : Bool := p.data.isPrefixOf s.data

/-- Model of JavaScript String.prototype.slice with a start index only. -/
def jsSlice (n : Nat) (s : String) : String := ⟨s.data.drop n⟩

/-- Structured attributes of a key-value metadata record.  Fields that
the JavaScript reads and that may be absent are optional. -/
structure Metadata where
  storageType : Option String
  storage : Option String
  r2Key : Option String
  telegramMessageId : Option String
  deriving DecidableEq, Repr

/-- Result of getWithMetadata on the key-value store: a raw value plus
the metadata attributes, either of which may be null. -/
structure KVRecord where
  value : Option String
  metadata : Option Metadata
  deriving DecidableEq, Repr

/-- Environment bindings of the worker.  The two store bindings are
modelled only by whether they are configured; the Telegram credentials
are strings whose truthiness the code tests. -/
structure Env where
  img_url : Bool
  R2_BUCKET : Bool
  TG_Bot_Token : Option String
  TG_Chat_ID : Option String
  deriving DecidableEq, Repr

/-- Parsed JSON body of a Telegram deleteMessage response; the ok field
may be absent. -/
structure TgData where
  ok : Option Bool
  deriving DecidableEq, Repr

/-- Outcome of a completed fetch to the Telegram API: the transport-level
ok flag of the response, and the body parse result (none when the call
response.json() throws on a malformed body). -/
structure TgResponse where
  ok : Bool
  json : Option TgData
  deriving DecidableEq, Repr

/-- Externally visible operations issued by the handler, in issue order. -/
inductive Event where
  | kvGet (key : String) : Event
  | kvDelete (key : String) : Event
  | r2Delete (key : String) : Event
  | tgFetch (messageId : String) : Event
  deriving DecidableEq, Repr

def isKvDelete : Event → Bool
  | Event.kvDelete _ => true
  | _ => false

/-- An event is a mutation or outbound transport call (everything except
a key-value lookup). -/
def isMutation : Event → Bool
  | Event.kvGet _ => false
  | _ => true

/-- The fixed list of key prefixes probed by the resolver, written
exactly as in the source. -/
def prefixes : List String := ["img:", "vid:", "aud:", "doc:", "r2:", ""]

/-- Embeds: prefixes.some((prefix) => prefix && fileId.startsWith(prefix)).
The empty prefix is falsy and therefore never counts. -/
def hasKnownPrefix (fileId : String) : Bool :=
  prefixes.any (fun p => !(p == "") && jsStartsWith fileId p)

/-- Candidate storage keys probed by getRecordWithKey, in order. -/
def candidateKeys (fileId : String) : List String :=
  if hasKnownPrefix fileId then [fileId] else prefixes.map (fun p => p ++ fileId)

/-- A lookup result counts as a hit when the record exists and its
metadata attributes are non-null (record && record.metadata). -/
def hitRecord : Option KVRecord → Bool
  | none => false
  | some r => r.metadata.isSome

/-- Result of the key resolver: the record found (none when no candidate
matched), the key it reports, and the keys probed, in probe order. -/
structure ResolveResult where
  record : Option KVRecord
  kvKey : String
  probed : List String
  deriving Repr

/-- Loop body of getRecordWithKey: probe each candidate in order against
the key-value oracle, stopping at the first hit; returns the hit key (if
any) together with the list of keys actually probed. -/
def probeKeys (kv : String → Option KVRecord) : List String → Option String × List String
  | [] => (none, [])
  | k :: rest =>
    if hitRecord (kv k) then (some k, [k])
    else
      let r := probeKeys kv rest
      (r.1, k :: r.2)

/-- Embeds getRecordWithKey from the source: probe the candidate keys in
order and return the first record whose metadata is non-null together
with the key it was found under; when no candidate matches, return a
null record together with the raw file identifier. -/
def getRecordWithKey (kv : String → Option KVRecord) (fileId : String) : ResolveResult :=
  let res := probeKeys kv (candidateKeys fileId)
  match res.1 with
  | some k => ⟨kv k, k, res.2⟩
  | none => ⟨none, fileId, res.2⟩

/-- Metadata of an optional record (null propagates). -/
def recMeta : Option KVRecord → Option Metadata
  | none => none
  | some r => r.metadata

def r2Colon : String := "r2:"

def r2Str : String := "r2"

/-- Embeds the classification expression of the handler:
fileId.startsWith(r2:) || metadata.storageType === r2 || metadata.storage === r2. -/
def classifyIsR2 (fileId : String) (metadata : Metadata) : Bool :=
  jsStartsWith fileId r2Colon || metadata.storageType == some r2Str
    || metadata.storage == some r2Str

/-- Embeds the physical-key expression of the R2 branch:
metadata.r2Key || (kvKey starts with r2: ? kvKey.slice(3) : null)
|| (fileId starts with r2: ? fileId.slice(3) : fileId). -/
def resolveR2Key (metadata : Metadata) (kvKey fileId : String) : String :=
  jsOrS metadata.r2Key
    (jsOrS (if jsStartsWith kvKey r2Colon then some (jsSlice 3 kvKey) else none)
      (if jsStartsWith fileId r2Colon then jsSlice 3 fileId else fileId))

/-- Embeds deleteTelegramMessage from the source.  The fetchResult oracle
is the outcome of the single fetch call: none models the fetch promise
rejecting (network error), some resp a completed HTTP response.  The
function never throws; it returns the boolean result of the JavaScript
function together with the list of message ids for which an outbound
transport call was actually issued. -/
def deleteTelegramMessage (messageId : Option String) (env : Env)
    (fetchResult : Option TgResponse) : Bool × List String :=
  if !truthyS messageId || !truthyS env.TG_Bot_Token || !truthyS env.TG_Chat_ID then
    (false, [])
  else
    let mid := messageId.getD ""
    match fetchResult with
    | none => (false, [mid])
    | some resp =>
      let data : TgData := match resp.json with
        | none => ⟨some false⟩
        | some d => d
      (resp.ok && truthyB data.ok, [mid])

def kvMissingMsg : String := "KV binding img_url is not configured."

def notFoundMsg : String := "File metadata not found."

def r2MissingMsg : String := "R2 bucket is not configured."

def r2KeyFailMsg : String := "Failed to resolve R2 key."

def deletedFromR2Msg : String := "Deleted from R2 and KV."

def deletedBothMsg : String := "Deleted from Telegram and KV."

def kvOnlyMsg : String := "KV metadata deleted (Telegram deletion best-effort)."

def warningMsg : String :=
  "Telegram deletion failed or messageId missing, but KV metadata was forcibly deleted."

/-- JSON body shape of every response of the endpoint; fields that a
given branch does not emit are none. -/
structure ResponseBody where
  success : Bool
  error : Option String
  message : Option String
  fileId : Option String
  r2Key : Option String
  kvKey : Option String
  telegramDeleteAttempted : Option Bool
  telegramDeleted : Option Bool
  warning : Option String
  telegramDeleteError : Option String
  deriving DecidableEq, Repr

/-- HTTP response: status code plus JSON body (jsonResponse in the
source, whose default status is 200 and which always sets the JSON
content type header). -/
structure HttpResponse where
  status : Nat
  body : ResponseBody
  deriving DecidableEq, Repr

def jsonResponse (body : ResponseBody) (status : Nat) : HttpResponse := ⟨status, body⟩

/-- Body {success:false, error:msg} used for 404 and 500 responses. -/
def errorBody (msg : String) : ResponseBody :=
  ⟨false, some msg, none, none, none, none, none, none, none, none⟩

/-- Body of the successful R2-branch response. -/
def r2SuccessBody (fileId r2Key kvKey : String) : ResponseBody :=
  ⟨true, none, some deletedFromR2Msg, some fileId, some r2Key, some kvKey,
    none, none, none, none⟩

/-- Body of the Telegram-branch response, assembled exactly as in the
source from the three local flags and the captured error. -/
def telegramBody (fileId kvKey : String) (attempted deleted : Bool)
    (tgError : Option String) : ResponseBody :=
  ⟨true, none,
    some (if deleted then deletedBothMsg else kvOnlyMsg),
    some fileId, none, some kvKey,
    some attempted, some deleted,
    some (if deleted then "" else warningMsg),
    tgError⟩

/-- Per-request external world.  kv is the key-value lookup oracle;
r2Result is the outcome of the single R2 delete call of the request
(none = resolves, some e = the awaited promise rejects with message e);
tgStep is the outcome of awaiting deleteTelegramMessage at its call site
(an Except.error models the awaited promise rejecting, which the handler
catches); tgCalls lists the outbound transport calls issued during that
step.  The key-value delete is modelled as always succeeding, following
the external-interface contract delete(key) -> ok. -/
structure World where
  kv : String → Option KVRecord
  r2Result : Option String
  tgStep : Except String Bool
  tgCalls : List String

/-- World in which the Telegram step behaves exactly as the source
function deleteTelegramMessage: it resolves to the boolean it computes
and issues the transport calls it records. -/
def telegramWorld (kv : String → Option KVRecord) (r2Result : Option String)
    (messageId : Option String) (env : Env) (fetchResult : Option TgResponse) : World :=
  ⟨kv, r2Result,
    Except.ok (deleteTelegramMessage messageId env fetchResult).1,
    (deleteTelegramMessage messageId env fetchResult).2⟩

/-- Embeds onRequest from the source.  rawId is params.id; decodedId is
the outcome of decodeURIComponent (none when it throws, in which case
the raw value is used).  Returns the HTTP response together with the
trace of external operations in issue order.  Thrown errors inside the
outer try are rendered as the 500 catch-all response, exactly as the
outer catch does. -/
def onRequest (env : Env) (rawId : String) (decodedId : Option String)
    (w : World) : HttpResponse × List Event :=
  let fileId := decodedId.getD rawId
  if !env.img_url then
    (jsonResponse (errorBody kvMissingMsg) 500, [])
  else
    let res := getRecordWithKey w.kv fileId
    let trace0 := res.probed.map Event.kvGet
    match recMeta res.record with
    | none => (jsonResponse (errorBody notFoundMsg) 404, trace0)
    | some metadata =>
      let kvKey := res.kvKey
      if classifyIsR2 fileId metadata then
        let r2Key := resolveR2Key metadata kvKey fileId
        if !env.R2_BUCKET then
          (jsonResponse (errorBody r2MissingMsg) 500, trace0)
        else if r2Key == "" then
          (jsonResponse (errorBody r2KeyFailMsg) 500, trace0)
        else
          match w.r2Result with
          | some e => (jsonResponse (errorBody e) 500, trace0 ++ [Event.r2Delete r2Key])
          | none =>
            (jsonResponse (r2SuccessBody fileId r2Key kvKey) 200,
              trace0 ++ [Event.r2Delete r2Key, Event.kvDelete kvKey])
      else
        if truthyS metadata.telegramMessageId then
          match w.tgStep with
          | Except.ok b =>
            (jsonResponse (telegramBody fileId kvKey true b none) 200,
              trace0 ++ w.tgCalls.map Event.tgFetch ++ [Event.kvDelete kvKey])
          | Except.error e =>
            (jsonResponse (telegramBody fileId kvKey true false (some e)) 200,
              trace0 ++ w.tgCalls.map Event.tgFetch ++ [Event.kvDelete kvKey])
        else
          (jsonResponse (telegramBody fileId kvKey false false none) 200,
            trace0 ++ [Event.kvDelete kvKey])

theorem empty_append_str (s : String) : ("" ++ s) = s := by
  cases s
  rfl

/-- Characterization of the probe loop when some candidate hits: it
returns the first hit and has probed exactly the misses before it plus
the hit itself. -/
theorem probeKeys_eq_of_found (kv : String → Option KVRecord) (l : List String)
    (k : String) (h : l.find? (fun c => hitRecord (kv c)) = some k) :
    probeKeys kv l = (some k, l.takeWhile (fun c => !hitRecord (kv c)) ++ [k]) := by
  induction l with
  | nil => simp at h
  | cons a rest ih =>
    rw [List.find?_cons] at h
    cases ha : hitRecord (kv a) with
    | true =>
      simp only [ha] at h
      cases h
      simp [probeKeys, ha, List.takeWhile_cons]
    | false =>
      simp only [ha] at h
      simp [probeKeys, ha, List.takeWhile_cons, ih h]

/-- Characterization of the probe loop when no candidate hits: every
candidate is probed and none is returned. -/
theorem probeKeys_eq_of_none (kv : String → Option KVRecord) (l : List String)
    (h : l.find? (fun c => hitRecord (kv c)) = none) :
    probeKeys kv l = (none, l) := by
  induction l with
  | nil => simp [probeKeys]
  | cons a rest ih =>
    rw [List.find?_cons] at h
    cases ha : hitRecord (kv a) with
    | true =>
      simp only [ha] at h
      exact Option.noConfusion h
    | false =>
      simp only [ha] at h
      simp [probeKeys, ha, ih h]

theorem getRecordWithKey_of_found (kv : String → Option KVRecord) (fileId k : String)
    (h : (candidateKeys fileId).find? (fun c => hitRecord (kv c)) = some k) :
    getRecordWithKey kv fileId
      = ⟨kv k, k, (candidateKeys fileId).takeWhile (fun c => !hitRecord (kv c)) ++ [k]⟩ := by
  simp [getRecordWithKey, probeKeys_eq_of_found kv _ k h]

theorem getRecordWithKey_of_none (kv : String → Option KVRecord) (fileId : String)
    (h : (candidateKeys fileId).find? (fun c => hitRecord (kv c)) = none) :
    getRecordWithKey kv fileId = ⟨none, fileId, candidateKeys fileId⟩ := by
  simp [getRecordWithKey, probeKeys_eq_of_none kv _ h]

/-- When the resolver reports no metadata, no candidate key hit. -/
theorem find?_none_of_recMeta_none (kv : String → Option KVRecord) (fileId : String)
    (h : recMeta (getRecordWithKey kv fileId).record = none) :
    (candidateKeys fileId).find? (fun c => hitRecord (kv c)) = none := by
  cases hfind : (candidateKeys fileId).find? (fun c => hitRecord (kv c)) with
  | none => rfl
  | some k =>
    have hrec := getRecordWithKey_of_found kv fileId k hfind
    have hk : hitRecord (kv k) = true := by
      have := List.find?_some hfind
      simpa using this
    rw [hrec] at h
    cases hkv : kv k with
    | none => rw [hkv] at hk; simp [hitRecord] at hk
    | some r =>
      rw [hkv] at hk h
      simp [hitRecord] at hk
      simp [recMeta, Option.isSome_iff_exists] at h hk
      obtain ⟨m, hm⟩ := hk
      rw [hm] at h
      cases h

/-- Claim C4: for an identifier with no known prefix the resolver probes
exactly the six candidate keys built from the prefixes img, vid, aud,
doc, r2 and the bare identifier, in that order, stopping at the first
candidate whose record has non-null metadata; the probe list ends at the
first hit, so any later candidate is never consulted. -/
theorem resolver_probe_order_first_hit (kv : String → Option KVRecord) (fileId : String)
    (h : hasKnownPrefix fileId = false) :
    candidateKeys fileId
      = ["img:" ++ fileId, "vid:" ++ fileId, "aud:" ++ fileId, "doc:" ++ fileId,
         "r2:" ++ fileId, fileId]
    ∧ ∀ k, (candidateKeys fileId).find? (fun c => hitRecord (kv c)) = some k →
        (getRecordWithKey kv fileId).kvKey = k
        ∧ (getRecordWithKey kv fileId).record = kv k
        ∧ (getRecordWithKey kv fileId).probed
            = (candidateKeys fileId).takeWhile (fun c => !hitRecord (kv c)) ++ [k] := by
  constructor
  · simp [candidateKeys, h, prefixes, empty_append_str]
  · intro k hk
    rw [getRecordWithKey_of_found kv fileId k hk]
    exact ⟨rfl, rfl, rfl⟩

theorem resolver_probe_order_first_hit_witness :
    hasKnownPrefix ("xyz") = false
    ∧ (candidateKeys ("xyz")).find?
        (fun c => hitRecord
          (if c == ("vid:xyz") || c == ("doc:xyz")
            then some ⟨none, some ⟨none, none, none, some ("55")⟩⟩ else none))
        = some ("vid:xyz")
    ∧ (getRecordWithKey
        (fun c => if c == ("vid:xyz") || c == ("doc:xyz")
          then some ⟨none, some ⟨none, none, none, some ("55")⟩⟩ else none)
        ("xyz")).kvKey = "vid:xyz" := by
  refine ⟨by decide, by decide, ?_⟩
  exact ((resolver_probe_order_first_hit _ _ (by decide)).2 _ (by decide)).1

/-- Claim C8: an identifier that already carries a known prefix is used
as the single literal candidate, so exactly one lookup is attempted; and
whenever no candidate matches, the resolver reports the raw identifier,
which is also the last key it probed. -/
theorem resolver_known_prefix_single_probe_and_last_key
    (kv : String → Option KVRecord) (fileId : String) :
    (hasKnownPrefix fileId = true → (getRecordWithKey kv fileId).probed = [fileId])
    ∧ (recMeta (getRecordWithKey kv fileId).record = none →
        (getRecordWithKey kv fileId).kvKey = fileId
        ∧ (getRecordWithKey kv fileId).probed.getLast?
            = some (getRecordWithKey kv fileId).kvKey) := by
  constructor
  · intro h
    have hc : candidateKeys fileId = [fileId] := by simp [candidateKeys, h]
    cases hfind : (candidateKeys fileId).find? (fun c => hitRecord (kv c)) with
    | none => rw [getRecordWithKey_of_none kv fileId hfind, hc]
    | some k =>
      have hprobed := getRecordWithKey_of_found kv fileId k hfind
      rw [hc, List.find?_cons] at hfind
      cases hhit : hitRecord (kv fileId) with
      | false =>
        simp only [hhit] at hfind
        simp at hfind
      | true =>
        simp only [hhit] at hfind
        cases hfind
        rw [hprobed, hc]
        simp [List.takeWhile_cons, hhit]
  · intro h
    have hfind := find?_none_of_recMeta_none kv fileId h
    rw [getRecordWithKey_of_none kv fileId hfind]
    refine ⟨rfl, ?_⟩
    by_cases hp : hasKnownPrefix fileId = true
    · simp [candidateKeys, hp]
    · have hp2 : hasKnownPrefix fileId = false := by
        cases hx : hasKnownPrefix fileId
        · rfl
        · exact absurd hx hp
      simp [candidateKeys, hp2, prefixes, empty_append_str]

theorem resolver_known_prefix_single_probe_and_last_key_witness :
    hasKnownPrefix ("doc:zzz") = true
    ∧ (getRecordWithKey (fun _ => none) ("doc:zzz")).probed = ["doc:zzz"]
    ∧ recMeta (getRecordWithKey (fun _ => none) ("doc:zzz")).record = none
    ∧ (getRecordWithKey (fun _ => none) ("doc:zzz")).kvKey = "doc:zzz"
    ∧ (getRecordWithKey (fun _ => none) ("doc:zzz")).probed.getLast?
        = some (getRecordWithKey (fun _ => none) ("doc:zzz")).kvKey := by
  have h1 := (resolver_known_prefix_single_probe_and_last_key
    (fun _ => none) ("doc:zzz")).1 (by decide)
  have h2 := (resolver_known_prefix_single_probe_and_last_key
    (fun _ => none) ("doc:zzz")).2 (by decide)
  exact ⟨by decide, h1, by decide, h2.1, h2.2⟩

/-- Value the handler observes for telegramDeleted after awaiting the
Telegram step: the resolved boolean, or false when the step threw. -/
def tgStepOk : Except String Bool → Bool
  | Except.ok b => b
  | Except.error _ => false

/-- Error message the handler captures from the Telegram step. -/
def tgStepErr : Except String Bool → Option String
  | Except.ok _ => none
  | Except.error e => some e

/-- Complete characterization of a run of the handler on the messaging
branch: the response and the trace, for every outcome of the Telegram
step. -/
theorem onRequest_messaging_run (env : Env) (raw : String) (dec : Option String)
    (w : World) (md : Metadata)
    (h1 : env.img_url = true)
    (h2 : recMeta (getRecordWithKey w.kv (dec.getD raw)).record = some md)
    (h3 : classifyIsR2 (dec.getD raw) md = false) :
    onRequest env raw dec w
      = (jsonResponse
          (telegramBody (dec.getD raw) (getRecordWithKey w.kv (dec.getD raw)).kvKey
            (truthyS md.telegramMessageId)
            (truthyS md.telegramMessageId && tgStepOk w.tgStep)
            (if truthyS md.telegramMessageId then tgStepErr w.tgStep else none)) 200,
        (getRecordWithKey w.kv (dec.getD raw)).probed.map Event.kvGet
          ++ (if truthyS md.telegramMessageId then w.tgCalls.map Event.tgFetch else [])
          ++ [Event.kvDelete (getRecordWithKey w.kv (dec.getD raw)).kvKey]) := by
  cases hmid : truthyS md.telegramMessageId with
  | false => simp [onRequest, h1, h2, h3, hmid]
  | true =>
    cases hstep : w.tgStep with
    | ok b => simp [onRequest, h1, h2, h3, hmid, hstep, tgStepOk, tgStepErr]
    | error e => simp [onRequest, h1, h2, h3, hmid, hstep, tgStepOk, tgStepErr]

/-- Characterization of a run on the R2 branch when the object-store
delete call rejects: the 500 catch-all response, with the attempted
object delete in the trace and no key-value delete. -/
theorem onRequest_r2_run_fail (env : Env) (raw : String) (dec : Option String)
    (w : World) (md : Metadata) (e : String)
    (h1 : env.img_url = true)
    (h2 : recMeta (getRecordWithKey w.kv (dec.getD raw)).record = some md)
    (h3 : classifyIsR2 (dec.getD raw) md = true)
    (h4 : env.R2_BUCKET = true)
    (h5 : (resolveR2Key md (getRecordWithKey w.kv (dec.getD raw)).kvKey (dec.getD raw)
        == "") = false)
    (hr : w.r2Result = some e) :
    onRequest env raw dec w
      = (jsonResponse (errorBody e) 500,
        (getRecordWithKey w.kv (dec.getD raw)).probed.map Event.kvGet
          ++ [Event.r2Delete
              (resolveR2Key md (getRecordWithKey w.kv (dec.getD raw)).kvKey
                (dec.getD raw))]) := by
  simp [onRequest, h1, h2, h3, h4, h5, hr]

/-- Characterization of a run on the R2 branch when the object-store
delete succeeds: the 200 response, with the object delete followed by
the key-value delete in the trace. -/
theorem onRequest_r2_run_ok (env : Env) (raw : String) (dec : Option String)
    (w : World) (md : Metadata)
    (h1 : env.img_url = true)
    (h2 : recMeta (getRecordWithKey w.kv (dec.getD raw)).record = some md)
    (h3 : classifyIsR2 (dec.getD raw) md = true)
    (h4 : env.R2_BUCKET = true)
    (h5 : (resolveR2Key md (getRecordWithKey w.kv (dec.getD raw)).kvKey (dec.getD raw)
        == "") = false)
    (hr : w.r2Result = none) :
    onRequest env raw dec w
      = (jsonResponse
          (r2SuccessBody (dec.getD raw)
            (resolveR2Key md (getRecordWithKey w.kv (dec.getD raw)).kvKey (dec.getD raw))
            (getRecordWithKey w.kv (dec.getD raw)).kvKey) 200,
        (getRecordWithKey w.kv (dec.getD raw)).probed.map Event.kvGet
          ++ [Event.r2Delete
              (resolveR2Key md (getRecordWithKey w.kv (dec.getD raw)).kvKey (dec.getD raw)),
            Event.kvDelete (getRecordWithKey w.kv (dec.getD raw)).kvKey]) := by
  simp [onRequest, h1, h2, h3, h4, h5, hr]

/-- Characterization of a not-found run. -/
theorem onRequest_notfound_run (env : Env) (raw : String) (dec : Option String)
    (w : World)
    (h1 : env.img_url = true)
    (h2 : recMeta (getRecordWithKey w.kv (dec.getD raw)).record = none) :
    onRequest env raw dec w
      = (jsonResponse (errorBody notFoundMsg) 404,
        (getRecordWithKey w.kv (dec.getD raw)).probed.map Event.kvGet) := by
  simp [onRequest, h1, h2]

/-- Characterization of a run with the key-value binding missing. -/
theorem onRequest_nokv_run (env : Env) (raw : String) (dec : Option String)
    (w : World) (h1 : env.img_url = false) :
    onRequest env raw dec w = (jsonResponse (errorBody kvMissingMsg) 500, []) := by
  simp [onRequest, h1]

/-- Characterization of an R2-classified run with the bucket binding
missing: aborts at 500 before any mutation. -/
theorem onRequest_nobucket_run (env : Env) (raw : String) (dec : Option String)
    (w : World) (md : Metadata)
    (h1 : env.img_url = true)
    (h2 : recMeta (getRecordWithKey w.kv (dec.getD raw)).record = some md)
    (h3 : classifyIsR2 (dec.getD raw) md = true)
    (h4 : env.R2_BUCKET = false) :
    onRequest env raw dec w
      = (jsonResponse (errorBody r2MissingMsg) 500,
        (getRecordWithKey w.kv (dec.getD raw)).probed.map Event.kvGet) := by
  simp [onRequest, h1, h2, h3, h4]

@[simp] theorem isKvDelete_kvGet (k : String) : isKvDelete (Event.kvGet k) = false := rfl

@[simp] theorem isKvDelete_kvDel (k : String) : isKvDelete (Event.kvDelete k) = true := rfl

@[simp] theorem isKvDelete_r2Del (k : String) : isKvDelete (Event.r2Delete k) = false := rfl

@[simp] theorem isKvDelete_tgF (k : String) : isKvDelete (Event.tgFetch k) = false := rfl

@[simp] theorem isMutation_kvGet (k : String) : isMutation (Event.kvGet k) = false := rfl

/-- On maps of pure lookup events there is no key-value delete. -/
theorem countP_kvDelete_probe (probed : List String) :
    (probed.map Event.kvGet).countP (fun e => isKvDelete e) = 0 := by
  simp [List.countP_eq_zero]

theorem countP_mutation_probe (probed : List String) :
    (probed.map Event.kvGet).countP (fun e => isMutation e) = 0 := by
  simp [List.countP_eq_zero]

/-- Claim C3: when no candidate storage key yields a record with
non-null metadata, the handler answers 404 with success false, and the
trace holds only key-value lookups: no key-value delete, no object-store
delete and no transport call was issued. -/
theorem not_found_no_mutation (env : Env) (raw : String) (dec : Option String)
    (w : World)
    (h1 : env.img_url = true)
    (h2 : recMeta (getRecordWithKey w.kv (dec.getD raw)).record = none) :
    (onRequest env raw dec w).1.status = 404
    ∧ (onRequest env raw dec w).1.body.success = false
    ∧ (onRequest env raw dec w).1.body.error = some notFoundMsg
    ∧ (onRequest env raw dec w).2
        = (getRecordWithKey w.kv (dec.getD raw)).probed.map Event.kvGet
    ∧ (onRequest env raw dec w).2.countP (fun e => isMutation e) = 0 := by
  rw [onRequest_notfound_run env raw dec w h1 h2]
  exact ⟨rfl, rfl, rfl, rfl, countP_mutation_probe _⟩

theorem not_found_no_mutation_witness :
    (⟨true, true, none, none⟩ : Env).img_url = true
    ∧ recMeta (getRecordWithKey (fun _ => none)
        ((some ("ghost")).getD ("ghost"))).record = none
    ∧ (onRequest ⟨true, true, none, none⟩ ("ghost") (some ("ghost"))
        ⟨fun _ => none, none, Except.ok false, []⟩).1.status = 404
    ∧ (onRequest ⟨true, true, none, none⟩ ("ghost") (some ("ghost"))
        ⟨fun _ => none, none, Except.ok false, []⟩).2.countP
          (fun e => isMutation e) = 0 := by
  have h := not_found_no_mutation ⟨true, true, none, none⟩ ("ghost") (some ("ghost"))
    ⟨fun _ => none, none, Except.ok false, []⟩ rfl (by decide)
  exact ⟨rfl, by decide, h.1, h.2.2.2.2⟩

/-- Claim C1: on the messaging branch the key-value metadata delete is
issued exactly once, strictly after the remote-deletion attempt has
completed, for every outcome of that attempt: skipped for lack of a
message reference, resolved false, resolved true, or the awaited step
throwing. -/
theorem messaging_kv_delete_once_after_remote (env : Env) (raw : String)
    (dec : Option String) (w : World) (md : Metadata)
    (h1 : env.img_url = true)
    (h2 : recMeta (getRecordWithKey w.kv (dec.getD raw)).record = some md)
    (h3 : classifyIsR2 (dec.getD raw) md = false) :
    (onRequest env raw dec w).2
      = (getRecordWithKey w.kv (dec.getD raw)).probed.map Event.kvGet
        ++ (if truthyS md.telegramMessageId then w.tgCalls.map Event.tgFetch else [])
        ++ [Event.kvDelete (getRecordWithKey w.kv (dec.getD raw)).kvKey]
    ∧ (onRequest env raw dec w).2.countP (fun e => isKvDelete e) = 1 := by
  rw [onRequest_messaging_run env raw dec w md h1 h2 h3]
  refine ⟨rfl, ?_⟩
  cases truthyS md.telegramMessageId <;>
    simp [List.countP_singleton, Function.comp_def]

theorem messaging_kv_delete_once_after_remote_witness :
    (⟨true, true, none, none⟩ : Env).img_url = true
    ∧ recMeta (getRecordWithKey
        (fun k => if k == ("img:tg1")
          then some ⟨none, some ⟨none, none, none, some ("7")⟩⟩ else none)
        ((none : Option String).getD ("tg1"))).record
        = some ⟨none, none, none, some ("7")⟩
    ∧ classifyIsR2 ((none : Option String).getD ("tg1"))
        ⟨none, none, none, some ("7")⟩ = false
    ∧ (onRequest ⟨true, true, none, none⟩ ("tg1") none
        ⟨fun k => if k == ("img:tg1")
            then some ⟨none, some ⟨none, none, none, some ("7")⟩⟩ else none,
          none, Except.error ("boom"), ["7"]⟩).2.countP (fun e => isKvDelete e) = 1 := by
  have h := messaging_kv_delete_once_after_remote ⟨true, true, none, none⟩ ("tg1") none
    ⟨fun k => if k == ("img:tg1")
        then some ⟨none, some ⟨none, none, none, some ("7")⟩⟩ else none,
      none, Except.error ("boom"), ["7"]⟩
    ⟨none, none, none, some ("7")⟩ rfl (by decide) (by decide)
  exact ⟨rfl, by decide, by decide, h.2⟩

/-- Claim C2: on the object-store branch, the object delete and the
key-value delete are issued sequentially in that order; a failed object
delete yields the 500 failure response with the metadata record left
intact (no key-value delete in the trace), while a successful object
delete is always followed by the key-value delete. -/
theorem r2_sequential_delete_and_failure_keeps_metadata (env : Env) (raw : String)
    (dec : Option String) (w : World) (md : Metadata)
    (h1 : env.img_url = true)
    (h2 : recMeta (getRecordWithKey w.kv (dec.getD raw)).record = some md)
    (h3 : classifyIsR2 (dec.getD raw) md = true)
    (h4 : env.R2_BUCKET = true)
    (h5 : (resolveR2Key md (getRecordWithKey w.kv (dec.getD raw)).kvKey (dec.getD raw)
        == "") = false) :
    (∀ e, w.r2Result = some e →
      (onRequest env raw dec w).1.status = 500
      ∧ (onRequest env raw dec w).1.body.success = false
      ∧ (onRequest env raw dec w).2
          = (getRecordWithKey w.kv (dec.getD raw)).probed.map Event.kvGet
            ++ [Event.r2Delete
                (resolveR2Key md (getRecordWithKey w.kv (dec.getD raw)).kvKey
                  (dec.getD raw))]
      ∧ (onRequest env raw dec w).2.countP (fun ev => isKvDelete ev) = 0)
    ∧ (w.r2Result = none →
      (onRequest env raw dec w).1.status = 200
      ∧ (onRequest env raw dec w).1.body.success = true
      ∧ (onRequest env raw dec w).2
          = (getRecordWithKey w.kv (dec.getD raw)).probed.map Event.kvGet
            ++ [Event.r2Delete
                (resolveR2Key md (getRecordWithKey w.kv (dec.getD raw)).kvKey
                  (dec.getD raw)),
              Event.kvDelete (getRecordWithKey w.kv (dec.getD raw)).kvKey]) := by
  constructor
  · intro e hr
    rw [onRequest_r2_run_fail env raw dec w md e h1 h2 h3 h4 h5 hr]
    refine ⟨rfl, rfl, rfl, ?_⟩
    simp [List.countP_singleton, Function.comp_def]
  · intro hr
    rw [onRequest_r2_run_ok env raw dec w md h1 h2 h3 h4 h5 hr]
    exact ⟨rfl, rfl, rfl⟩

theorem r2_sequential_delete_and_failure_keeps_metadata_witness :
    (⟨true, true, none, none⟩ : Env).img_url = true
    ∧ recMeta (getRecordWithKey
        (fun k => if k == ("r2:zz") then some ⟨none, some ⟨none, none, none, none⟩⟩
          else none)
        ((none : Option String).getD ("r2:zz"))).record
        = some ⟨none, none, none, none⟩
    ∧ classifyIsR2 ((none : Option String).getD ("r2:zz"))
        ⟨none, none, none, none⟩ = true
    ∧ (⟨true, true, none, none⟩ : Env).R2_BUCKET = true
    ∧ (resolveR2Key ⟨none, none, none, none⟩
        (getRecordWithKey
          (fun k => if k == ("r2:zz") then some ⟨none, some ⟨none, none, none, none⟩⟩
            else none)
          ((none : Option String).getD ("r2:zz"))).kvKey
        ((none : Option String).getD ("r2:zz")) == "") = false
    ∧ (onRequest ⟨true, true, none, none⟩ ("r2:zz") none
        ⟨fun k => if k == ("r2:zz") then some ⟨none, some ⟨none, none, none, none⟩⟩
            else none,
          some ("store down"), Except.ok false, []⟩).1.status = 500
    ∧ (onRequest ⟨true, true, none, none⟩ ("r2:zz") none
        ⟨fun k => if k == ("r2:zz") then some ⟨none, some ⟨none, none, none, none⟩⟩
            else none,
          some ("store down"), Except.ok false, []⟩).2.countP
          (fun ev => isKvDelete ev) = 0 := by
  have h := (r2_sequential_delete_and_failure_keeps_metadata ⟨true, true, none, none⟩
    ("r2:zz") none
    ⟨fun k => if k == ("r2:zz") then some ⟨none, some ⟨none, none, none, none⟩⟩
        else none,
      some ("store down"), Except.ok false, []⟩
    ⟨none, none, none, none⟩ rfl (by decide) (by decide) rfl (by decide)).1
    ("store down") rfl
  exact ⟨rfl, by decide, by decide, rfl, by decide, h.1, h.2.2.2⟩

/-- Claim C9: the messaging-branch response always reports whether the
remote deletion was attempted and whether it succeeded, carries the
captured step error, and holds a non-empty warning exactly when the
remote deletion did not succeed; the key-value delete is issued in every
case. -/
theorem messaging_response_flags_and_warning (env : Env) (raw : String)
    (dec : Option String) (w : World) (md : Metadata)
    (h1 : env.img_url = true)
    (h2 : recMeta (getRecordWithKey w.kv (dec.getD raw)).record = some md)
    (h3 : classifyIsR2 (dec.getD raw) md = false) :
    (onRequest env raw dec w).1.status = 200
    ∧ (onRequest env raw dec w).1.body.success = true
    ∧ (onRequest env raw dec w).1.body.telegramDeleteAttempted
        = some (truthyS md.telegramMessageId)
    ∧ (onRequest env raw dec w).1.body.telegramDeleted
        = some (truthyS md.telegramMessageId && tgStepOk w.tgStep)
    ∧ (∃ wmsg, (onRequest env raw dec w).1.body.warning = some wmsg
        ∧ ((wmsg == "") = false
            ↔ (truthyS md.telegramMessageId && tgStepOk w.tgStep) = false))
    ∧ Event.kvDelete (getRecordWithKey w.kv (dec.getD raw)).kvKey
        ∈ (onRequest env raw dec w).2 := by
  rw [onRequest_messaging_run env raw dec w md h1 h2 h3]
  refine ⟨rfl, rfl, rfl, rfl, ⟨_, rfl, ?_⟩, by simp⟩
  cases hb : truthyS md.telegramMessageId && tgStepOk w.tgStep with
  | true => simp [telegramBody]
  | false =>
    have hw : (warningMsg == "") = false := by decide
    simp [telegramBody, hw]

theorem messaging_response_flags_and_warning_witness :
    (⟨true, true, some ("tok"), some ("chat")⟩ : Env).img_url = true
    ∧ recMeta (getRecordWithKey
        (fun k => if k == ("img:w9")
          then some ⟨none, some ⟨none, none, none, some ("31")⟩⟩ else none)
        ((none : Option String).getD ("w9"))).record
        = some ⟨none, none, none, some ("31")⟩
    ∧ classifyIsR2 ((none : Option String).getD ("w9"))
        ⟨none, none, none, some ("31")⟩ = false
    ∧ (onRequest ⟨true, true, some ("tok"), some ("chat")⟩ ("w9") none
        ⟨fun k => if k == ("img:w9")
            then some ⟨none, some ⟨none, none, none, some ("31")⟩⟩ else none,
          none, Except.ok false, ["31"]⟩).1.body.telegramDeleteAttempted = some true
    ∧ (onRequest ⟨true, true, some ("tok"), some ("chat")⟩ ("w9") none
        ⟨fun k => if k == ("img:w9")
            then some ⟨none, some ⟨none, none, none, some ("31")⟩⟩ else none,
          none, Except.ok false, ["31"]⟩).1.body.telegramDeleted = some false := by
  have h := messaging_response_flags_and_warning
    ⟨true, true, some ("tok"), some ("chat")⟩ ("w9") none
    ⟨fun k => if k == ("img:w9")
        then some ⟨none, some ⟨none, none, none, some ("31")⟩⟩ else none,
      none, Except.ok false, ["31"]⟩
    ⟨none, none, none, some ("31")⟩ rfl (by decide) (by decide)
  exact ⟨rfl, by decide, by decide, h.2.2.1, h.2.2.2.1⟩

/-- Claim C10: absent messaging credentials are not a fatal fault.  When
the bot token or the chat id binding is falsy, the Telegram step makes
no transport call and resolves to false, yet the handler still deletes
the metadata key, reports the attempt, and answers 200 with success
true; in contrast, a missing key-value binding or a missing object-store
binding aborts the request at 500. -/
theorem missing_credentials_best_effort (env : Env) (raw : String)
    (dec : Option String) (kv : String → Option KVRecord) (r2r : Option String)
    (f : Option TgResponse) (md : Metadata)
    (h1 : env.img_url = true)
    (h2 : recMeta (getRecordWithKey kv (dec.getD raw)).record = some md)
    (h3 : classifyIsR2 (dec.getD raw) md = false)
    (h4 : truthyS md.telegramMessageId = true)
    (h5 : truthyS env.TG_Bot_Token = false ∨ truthyS env.TG_Chat_ID = false) :
    (deleteTelegramMessage md.telegramMessageId env f).2 = []
    ∧ (onRequest env raw dec
        (telegramWorld kv r2r md.telegramMessageId env f)).1.status = 200
    ∧ (onRequest env raw dec
        (telegramWorld kv r2r md.telegramMessageId env f)).1.body.success = true
    ∧ (onRequest env raw dec
        (telegramWorld kv r2r md.telegramMessageId env f)).1.body.telegramDeleteAttempted
        = some true
    ∧ (onRequest env raw dec
        (telegramWorld kv r2r md.telegramMessageId env f)).1.body.telegramDeleted
        = some false
    ∧ (onRequest env raw dec (telegramWorld kv r2r md.telegramMessageId env f)).2
        = (getRecordWithKey kv (dec.getD raw)).probed.map Event.kvGet
          ++ [Event.kvDelete (getRecordWithKey kv (dec.getD raw)).kvKey]
    ∧ (∀ (env2 : Env) (raw2 : String) (dec2 : Option String) (w2 : World),
        env2.img_url = false →
        (onRequest env2 raw2 dec2 w2).1.status = 500
        ∧ (onRequest env2 raw2 dec2 w2).2 = [])
    ∧ (∀ (env2 : Env) (raw2 : String) (dec2 : Option String) (w2 : World)
        (md2 : Metadata),
        env2.img_url = true →
        recMeta (getRecordWithKey w2.kv (dec2.getD raw2)).record = some md2 →
        classifyIsR2 (dec2.getD raw2) md2 = true →
        env2.R2_BUCKET = false →
        (onRequest env2 raw2 dec2 w2).1.status = 500
        ∧ (onRequest env2 raw2 dec2 w2).2.countP (fun e2 => isMutation e2) = 0) := by
  have hdel : deleteTelegramMessage md.telegramMessageId env f = (false, []) := by
    rcases h5 with h5 | h5 <;> simp [deleteTelegramMessage, h5]
  have hrun := onRequest_messaging_run env raw dec
    (telegramWorld kv r2r md.telegramMessageId env f) md h1 h2 h3
  refine ⟨by simp [hdel], ?_, ?_, ?_, ?_, ?_, ?_, ?_⟩
  · rw [hrun]
    rfl
  · rw [hrun]
    rfl
  · rw [hrun]
    simp [telegramBody, jsonResponse, h4]
  · rw [hrun]
    simp [telegramBody, jsonResponse, telegramWorld, hdel, tgStepOk]
  · rw [hrun]
    simp [telegramWorld, hdel, h4]
  · intro env2 raw2 dec2 w2 hky
    rw [onRequest_nokv_run env2 raw2 dec2 w2 hky]
    exact ⟨rfl, rfl⟩
  · intro env2 raw2 dec2 w2 md2 g1 g2 g3 g4
    rw [onRequest_nobucket_run env2 raw2 dec2 w2 md2 g1 g2 g3 g4]
    exact ⟨rfl, countP_mutation_probe _⟩

theorem missing_credentials_best_effort_witness :
    (⟨true, true, none, none⟩ : Env).img_url = true
    ∧ recMeta (getRecordWithKey
        (fun k => if k == ("img:m1")
          then some ⟨none, some ⟨none, none, none, some ("9")⟩⟩ else none)
        ((none : Option String).getD ("m1"))).record
        = some ⟨none, none, none, some ("9")⟩
    ∧ classifyIsR2 ((none : Option String).getD ("m1"))
        ⟨none, none, none, some ("9")⟩ = false
    ∧ truthyS (⟨none, none, none, some ("9")⟩ : Metadata).telegramMessageId = true
    ∧ truthyS (⟨true, true, none, none⟩ : Env).TG_Bot_Token = false
    ∧ (deleteTelegramMessage (⟨none, none, none, some ("9")⟩ : Metadata).telegramMessageId
        ⟨true, true, none, none⟩ none).2 = []
    ∧ (onRequest ⟨true, true, none, none⟩ ("m1") none
        (telegramWorld
          (fun k => if k == ("img:m1")
            then some ⟨none, some ⟨none, none, none, some ("9")⟩⟩ else none)
          none (⟨none, none, none, some ("9")⟩ : Metadata).telegramMessageId
          ⟨true, true, none, none⟩ none)).1.status = 200 := by
  have h := missing_credentials_best_effort ⟨true, true, none, none⟩ ("m1") none
    (fun k => if k == ("img:m1")
      then some ⟨none, some ⟨none, none, none, some ("9")⟩⟩ else none)
    none none ⟨none, none, none, some ("9")⟩
    rfl (by decide) (by decide) (by decide) (Or.inl (by decide))
  exact ⟨rfl, by decide, by decide, by decide, by decide, h.1, h.2.1⟩

/-- First non-empty string of a list, empty when none is. -/
def firstNonEmpty : List String → String
  | [] => ""
  | s :: rest => if s == "" then firstNonEmpty rest else s

/-- Physical-key resolution rule exactly as the spec words it: first
non-empty wins among, in order, the explicit r2Key field of the record;
the storage key with the object-store prefix stripped, when the storage
key carries that prefix; the asset identifier with the object-store
prefix stripped, when it carries that prefix; otherwise the raw asset
identifier. -/
def specPhysicalKey (metadata : Metadata) (kvKey fileId : String) : String :=
  firstNonEmpty
    [metadata.r2Key.getD "",
      if jsStartsWith kvKey r2Colon then jsSlice 3 kvKey else "",
      if jsStartsWith fileId r2Colon then jsSlice 3 fileId else "",
      if jsStartsWith fileId r2Colon then "" else fileId]

/-- Claim C5: the R2 physical key computed by the handler agrees with
the spec resolution order (first non-empty wins) on all inputs; and in
the concrete scenario of identifier r2:abc123 with a record holding no
explicit r2Key, the physical key resolves to abc123, the object is
deleted and then key r2:abc123 is removed from the metadata store, with
a success response. -/
theorem r2_physical_key_resolution :
    (∀ (md : Metadata) (kvKey fileId : String),
      resolveR2Key md kvKey fileId = specPhysicalKey md kvKey fileId)
    ∧ (onRequest ⟨true, true, none, none⟩ ("r2:abc123") (some ("r2:abc123"))
        ⟨fun k => if k == ("r2:abc123")
            then some ⟨none, some ⟨none, none, none, none⟩⟩ else none,
          none, Except.ok false, []⟩)
        = (jsonResponse (r2SuccessBody ("r2:abc123") ("abc123") ("r2:abc123")) 200,
            [Event.kvGet ("r2:abc123"), Event.r2Delete ("abc123"),
              Event.kvDelete ("r2:abc123")]) := by
  constructor
  · intro md kvKey fileId
    cases hr : md.r2Key with
    | none =>
      cases hkv : jsStartsWith kvKey r2Colon <;>
        cases hf : jsStartsWith fileId r2Colon <;>
          simp [resolveR2Key, specPhysicalKey, jsOrS, firstNonEmpty, hr, hkv, hf] <;>
            split_ifs <;> simp_all [beq_iff_eq]
    | some s =>
      cases hkv : jsStartsWith kvKey r2Colon <;>
        cases hf : jsStartsWith fileId r2Colon <;>
          simp [resolveR2Key, specPhysicalKey, jsOrS, firstNonEmpty, hr, hkv, hf] <;>
            split_ifs <;> simp_all [beq_iff_eq]
  · decide

/-- Claim C6: the remote-message deletion attempt reports success
exactly when the credentials and message id are truthy, the transport
call completes with a transport-level ok, the body parses, and the
parsed body explicitly signals application-level success; every other
outcome (transport rejection, malformed body, missing or negative ack)
is reported as false, and the function never propagates an exception,
being total by construction. -/
theorem telegram_delete_success_iff_ack (messageId : Option String) (env : Env)
    (fetchResult : Option TgResponse) :
    (deleteTelegramMessage messageId env fetchResult).1 = true
      ↔ (truthyS messageId = true ∧ truthyS env.TG_Bot_Token = true
          ∧ truthyS env.TG_Chat_ID = true
          ∧ ∃ resp, fetchResult = some resp ∧ resp.ok = true
              ∧ ∃ d, resp.json = some d ∧ d.ok = some true) := by
  cases hm : truthyS messageId with
  | false => simp [deleteTelegramMessage, hm]
  | true =>
    cases ht : truthyS env.TG_Bot_Token with
    | false => simp [deleteTelegramMessage, hm, ht]
    | true =>
      cases hc : truthyS env.TG_Chat_ID with
      | false => simp [deleteTelegramMessage, hm, ht, hc]
      | true =>
        cases fetchResult with
        | none => simp [deleteTelegramMessage, hm, ht, hc]
        | some resp =>
          cases hj : resp.json with
          | none => simp [deleteTelegramMessage, hm, ht, hc, hj, truthyB]
          | some d =>
            cases hd : d.ok with
            | none => simp [deleteTelegramMessage, hm, ht, hc, hj, hd, truthyB]
            | some b =>
              simp [deleteTelegramMessage, hm, ht, hc, hj, hd, truthyB,
                Bool.and_eq_true]

/-- Claim C7: a resolved request is classified to the object-store
backend exactly when the identifier carries the r2 prefix, or the
storageType field of the record equals r2, or the legacy storage field
equals r2; in every other case the boolean is false and the handler
takes the messaging branch. -/
theorem classifier_r2_iff (fileId : String) (md : Metadata) :
    classifyIsR2 fileId md = true
      ↔ (jsStartsWith fileId r2Colon = true ∨ md.storageType = some r2Str
          ∨ md.storage = some r2Str) := by
  simp [classifyIsR2, Bool.or_eq_true, beq_iff_eq, or_assoc]

end TGBed
